import Mathlib

/-!
Shallow embedding of the behavioral profiling and anomaly-scoring engine of the
repository (`backend/behavioral/behavior_manager.py`, class `BehaviorManager`).

Modelling choices:
* All claims are per-user, and the manager's dictionaries are keyed by user with
  no cross-user interaction, so the state `MState` models one user's slice of
  the manager: the profile entry, the behavior buffer, and the model/scaler
  entries.  A missing dictionary entry is `none`.
* Python floats are modelled as `ℚ`.  The only arithmetic fault the code can
  hit is a `ZeroDivisionError` in `_extract_keystroke_features`, modelled as
  `Option` (`none` = the exception, which the `process_*` methods catch).
* The sklearn backend (`IsolationForest` / `StandardScaler`) is opaque: a
  `Config` carries the availability flags (`SKLEARN_AVAILABLE`, `np`), an
  abstract scaler transform, and an abstract decision function, both taking the
  fitted training matrix as first argument.  A fitted model/scaler stores the
  matrix it was fitted on (`ModelState.fittedOn`); `none` means unfitted, where
  sklearn raises `NotFittedError`, which the detectors catch and turn into 0.0.
  Per sklearn, `IsolationForest.predict` returns 1 (normal) exactly when
  `decision_function` is nonnegative.
* Python truthiness on the relevant values: a number is truthy iff nonzero, a
  list iff nonempty, an optional string iff present and nonempty.
* Event dicts are modelled as `Event` records: the `type` key, the `timestamp`
  key, and an opaque payload `pl` standing for all other keys.  A device
  snapshot is modelled with `Option String` fields where `none` means the key
  is absent (`dict.get` yields `None`, `dict.update` leaves the stored value).
-/

namespace BehaviorAuth

/-- Python `l[-n:]` guarded by `if len(l) > n`: keep the most recent `n`
entries (for `len l ≤ n` this is `l` itself, as `drop 0`). -/
def takeLast {α : Type} (n : Nat) (l : List α) : List α :=
  l.drop (l.length - n)

/-- Python `max` over a list of rationals (meaningful on nonempty input; the
code only calls it on nonempty interval lists). -/
def listMax : List ℚ → ℚ
  | [] => 0
  | h :: t => t.foldl max h

/-- Consecutive pairwise differences, `[times[i] - times[i-1] for i in 1..]`. -/
def diffs : List ℚ → List ℚ
  | a :: b :: t => (b - a) :: diffs (b :: t)
  | _ => []

/-- Python `np.mean` / `sum(l)/len(l)` over a nonempty list, 0 on empty
(matching the `mean_clicks = 0` initialisation in `_train_user_model`). -/
def meanNat (l : List ℕ) : ℚ :=
  if l.isEmpty then 0 else (l.sum : ℚ) / (l.length : ℚ)

/-- One raw or buffered event dict: its `type` key, its `timestamp` key, and an
opaque payload standing for every other key. -/
structure Event where
  etype : String
  timestamp : ℚ
  pl : ℕ
deriving DecidableEq

/-- Result of `_extract_keystroke_features` (the empty dict returned on empty
input behaves, under `.get` with default, exactly like the all-zero record). -/
structure KFeatures where
  typing_speed : ℚ
  keystroke_intervals : List ℚ
  error_count : ℚ
  special_key_usage : ℚ
deriving DecidableEq

/-- Result of `_extract_mouse_features` (empty dict = all-zero record). -/
structure MFeatures where
  movement_speed : ℚ
  click_count : ℕ
  scroll_count : ℕ
  movement_variance : ℚ
deriving DecidableEq

/-- The `keystroke_patterns` sub-dict of a profile (`common_sequences` is never
read or written after creation and is omitted). -/
structure KeystrokePatterns where
  avg_typing_speed : ℚ
  keystroke_intervals : List ℚ
  error_rate : ℚ
deriving DecidableEq

/-- The `mouse_patterns` sub-dict of a profile. -/
structure MousePatterns where
  avg_movement_speed : ℚ
  click_patterns : List ℕ
  scroll_patterns : List ℚ
  movement_variance : ℚ
deriving DecidableEq

/-- The `device_patterns` sub-dict of a profile; `none` is Python `None`. -/
structure DevicePatterns where
  screen_resolution : Option String
  browser_info : Option String
  os_info : Option String
  ip_address : Option String
deriving DecidableEq

/-- A user behavior profile as created by `create_user_profile` (the
`user_id` and `created_at` bookkeeping fields are omitted). -/
structure Profile where
  keystroke_patterns : KeystrokePatterns
  mouse_patterns : MousePatterns
  device_patterns : DevicePatterns
  baseline_established : Bool
  anomaly_threshold : ℚ
deriving DecidableEq

/-- A per-user sklearn model or scaler object; `fittedOn` records the training
matrix it was fitted on, `none` meaning not yet fitted. -/
structure ModelState where
  fittedOn : Option (List (List ℚ))
deriving DecidableEq

/-- Environment of the engine: module-level availability flags and the opaque
sklearn behaviour (scaler transform and decision function, each taking the
fitted training matrix as first argument). -/
structure Config where
  sklearnAvailable : Bool
  numpyAvailable : Bool
  scalerTransform : List (List ℚ) → List ℚ → List ℚ
  decisionFunction : List (List ℚ) → List ℚ → ℚ

/-- One user's slice of the `BehaviorManager` state: `user_profiles[uid]`,
`behavior_buffer[uid]`, `anomaly_models[uid]`, `scalers[uid]`; `none` models a
missing (or `None`-valued) entry. -/
structure MState where
  profile : Option Profile
  buffer : List Event
  model : Option ModelState
  scaler : Option ModelState
deriving DecidableEq

/-- The fresh profile dictionary built by `create_user_profile`. -/
def freshProfile : Profile :=
  { keystroke_patterns := ⟨0, [], 0⟩
    mouse_patterns := ⟨0, [], [], 0⟩
    device_patterns := ⟨none, none, none, none⟩
    baseline_established := false
    anomaly_threshold := 3/20 }

/-- The `create_user_profile` method: installs a fresh profile, empties the
buffer, and installs an unfitted model/scaler pair when sklearn is available
(`None` entries otherwise). -/
def createUserProfile (cfg : Config) : MState :=
  { profile := some freshProfile
    buffer := []
    model := if cfg.sklearnAvailable then some ⟨none⟩ else none
    scaler := if cfg.sklearnAvailable then some ⟨none⟩ else none }

/-- The `_extract_keystroke_features` method.  `none` models the uncaught
`ZeroDivisionError` when at least two key-down timestamps coincide at the
maximal interval 0. -/
def extractKeystrokeFeatures (events : List Event) : Option KFeatures :=
  let keydown_times := (events.filter (fun e => e.etype == "keydown")).map
    (fun e => e.timestamp)
  if 1 < keydown_times.length then
    let intervals := diffs keydown_times
    let d := if intervals.isEmpty then 1 else listMax intervals
    if d = 0 then none
    else some ⟨(events.length : ℚ) / d, intervals, 0, 0⟩
  else some ⟨0, [], 0, 0⟩

/-- The `_extract_mouse_features` method (total; never raises). -/
def extractMouseFeatures (events : List Event) : MFeatures :=
  { movement_speed := 0
    click_count := (events.filter (fun e => e.etype == "click")).length
    scroll_count := (events.filter (fun e => e.etype == "scroll")).length
    movement_variance := 0 }

/-- The `_update_keystroke_profile` method: running-average smoothing of the
typing speed (guarded by truthiness of both values) and append-then-truncate of
the interval history at cap 1000. -/
def updateKeystrokeProfile (p : Profile) (f : KFeatures) : Profile :=
  let ks := p.keystroke_patterns
  let avg :=
    if f.typing_speed ≠ 0 then
      if ks.avg_typing_speed ≠ 0 then (ks.avg_typing_speed + f.typing_speed) / 2
      else f.typing_speed
    else ks.avg_typing_speed
  let ivs :=
    if f.keystroke_intervals.isEmpty then ks.keystroke_intervals
    else takeLast 1000 (ks.keystroke_intervals ++ f.keystroke_intervals)
  { p with keystroke_patterns :=
      { ks with avg_typing_speed := avg, keystroke_intervals := ivs } }

/-- The `_update_mouse_profile` method (the movement-speed branch is dead code
because extraction always yields movement speed 0, but is embedded anyway);
click counts append-then-truncate at cap 100. -/
def updateMouseProfile (p : Profile) (f : MFeatures) : Profile :=
  let ms := p.mouse_patterns
  let avg :=
    if f.movement_speed ≠ 0 then
      if ms.avg_movement_speed ≠ 0 then (ms.avg_movement_speed + f.movement_speed) / 2
      else f.movement_speed
    else ms.avg_movement_speed
  let clicks :=
    if f.click_count ≠ 0 then takeLast 100 (ms.click_patterns ++ [f.click_count])
    else ms.click_patterns
  { p with mouse_patterns :=
      { ms with avg_movement_speed := avg, click_patterns := clicks } }

/-- The `_check_baseline_sufficient` method: at least 50 stored keystroke
intervals or at least 20 stored click counts. -/
def checkBaselineSufficient (p : Profile) : Bool :=
  decide (50 ≤ p.keystroke_patterns.keystroke_intervals.length) ||
  decide (20 ≤ p.mouse_patterns.click_patterns.length)

/-- Training matrix assembled by `_train_user_model`: one keystroke-derived row
and/or one mouse-derived row, whichever pattern family has a positive running
average speed. -/
def trainingRows (p : Profile) : List (List ℚ) :=
  (if 0 < p.keystroke_patterns.avg_typing_speed then
    [[p.keystroke_patterns.avg_typing_speed,
      (p.keystroke_patterns.keystroke_intervals.length : ℚ),
      p.keystroke_patterns.error_rate, 0]]
   else []) ++
  (if 0 < p.mouse_patterns.avg_movement_speed then
    [[p.mouse_patterns.avg_movement_speed,
      meanNat p.mouse_patterns.click_patterns, 0,
      p.mouse_patterns.movement_variance]]
   else [])

/-- The `_train_user_model` method: a no-op without sklearn, without a profile,
with an empty training matrix, or without numpy; otherwise fits the user's
scaler and model on the matrix (both replaced wholesale). -/
def trainUserModel (cfg : Config) (s : MState) : MState :=
  if cfg.sklearnAvailable = false then s
  else
    match s.profile with
    | none => s
    | some p =>
      let rows := trainingRows p
      if !rows.isEmpty && cfg.numpyAvailable then
        { s with
          scaler := s.scaler.map (fun _ => ⟨some rows⟩)
          model := s.model.map (fun _ => ⟨some rows⟩) }
      else s

/-- Numeric feature vector built by `_detect_keystroke_anomalies`. -/
def kfVector (f : KFeatures) : List ℚ :=
  [f.typing_speed, (f.keystroke_intervals.length : ℚ), f.error_count,
   f.special_key_usage]

/-- Numeric feature vector built by `_detect_mouse_anomalies`. -/
def mfVector (f : MFeatures) : List ℚ :=
  [f.movement_speed, (f.click_count : ℚ), (f.scroll_count : ℚ),
   f.movement_variance]

/-- The `_detect_keystroke_anomalies` method.  Without sklearn: mock score
0.1.  Falsy model or scaler entry: 0.0.  Unfitted model or scaler: sklearn
raises `NotFittedError`, caught by the method's `except`, giving 0.0.
Otherwise the binary predict score is computed and then overwritten by the
clamped affine image of the decision margin. -/
def detectKeystrokeAnomalies (cfg : Config) (model scaler : Option ModelState)
    (f : KFeatures) : ℚ :=
  if cfg.sklearnAvailable = false then 1/10
  else
    match model, scaler with
    | some m, some sc =>
      match sc.fittedOn, m.fittedOn with
      | some sdata, some mdata =>
        let scaled := cfg.scalerTransform sdata (kfVector f)
        let d := cfg.decisionFunction mdata scaled
        let _binary : ℚ := if 0 ≤ d then 0 else 1
        max 0 (min 1 ((d + 1/2) / 1))
      | _, _ => 0
    | _, _ => 0

/-- The `_detect_mouse_anomalies` method: same guards, but the returned score
is the binary predict verdict (0.0 normal, 1.0 anomalous); no decision-margin
mapping is applied here. -/
def detectMouseAnomalies (cfg : Config) (model scaler : Option ModelState)
    (f : MFeatures) : ℚ :=
  if cfg.sklearnAvailable = false then 1/10
  else
    match model, scaler with
    | some m, some sc =>
      match sc.fittedOn, m.fittedOn with
      | some sdata, some mdata =>
        let scaled := cfg.scalerTransform sdata (mfVector f)
        let d := cfg.decisionFunction mdata scaled
        if 0 ≤ d then 0 else 1
      | _, _ => 0
    | _, _ => 0

/-- Event tagging loop of `process_keystroke_data` / `process_mouse_data`:
each event's `type` key is overwritten with the modality tag and its
`timestamp` key with the processing time, before buffering. -/
def tagEvents (tag : String) (now : ℚ) (events : List Event) : List Event :=
  events.map (fun e => { e with etype := tag, timestamp := now })

/-- Buffer append plus the `if len > self.buffer_size` truncation to the most
recent 50 entries. -/
def bufferAppend (buf extra : List Event) : List Event :=
  let b := buf ++ extra
  if 50 < b.length then takeLast 50 b else b

/-- The `process_keystroke_data` method (state part; the returned result dict
carries only scores/anomaly reports and an error marker, no state).  An
extraction exception is caught: the state beyond profile creation is
unchanged.  On the baseline transition the flag is set and then
`_train_user_model` runs, in that order. -/
def processKeystrokeData (cfg : Config) (now : ℚ) (s : MState)
    (events : List Event) : MState :=
  let s0 := if s.profile.isNone then createUserProfile cfg else s
  match s0.profile with
  | none => s0
  | some p =>
    match extractKeystrokeFeatures events with
    | none => s0
    | some f =>
      let p1 := updateKeystrokeProfile p f
      let buf := bufferAppend s0.buffer (tagEvents "keystroke" now events)
      if p1.baseline_established then
        { s0 with profile := some p1, buffer := buf }
      else
        if checkBaselineSufficient p1 then
          trainUserModel cfg
            { s0 with
              profile := some { p1 with baseline_established := true }
              buffer := buf }
        else
          { s0 with profile := some p1, buffer := buf }

/-- The `process_mouse_data` method (state part).  Note: unlike the keystroke
path, there is no baseline-sufficiency branch at all. -/
def processMouseData (cfg : Config) (now : ℚ) (s : MState)
    (events : List Event) : MState :=
  let s0 := if s.profile.isNone then createUserProfile cfg else s
  match s0.profile with
  | none => s0
  | some p =>
    let f := extractMouseFeatures events
    let p1 := updateMouseProfile p f
    let buf := bufferAppend s0.buffer (tagEvents "mouse" now events)
    { s0 with profile := some p1, buffer := buf }

/-- Python truthiness of a stored device field: present and nonempty. -/
def truthyOpt : Option String → Bool
  | none => false
  | some v => v != ""

/-- Semantics of `device_patterns.update(device_info)` per field: a key
present in the snapshot overwrites the stored value, an absent key leaves it. -/
def mergeField (old new : Option String) : Option String :=
  match new with
  | some v => some v
  | none => old

/-- The `process_device_data` method: returns the new state and the
`anomalies_detected` list as (description, severity) pairs, in emission
order (resolution, browser, IP). -/
def processDeviceData (cfg : Config) (s : MState) (snap : DevicePatterns) :
    MState × List (String × String) :=
  let s0 := if s.profile.isNone then createUserProfile cfg else s
  match s0.profile with
  | none => (s0, [])
  | some p =>
    let dp := p.device_patterns
    let a1 :=
      if truthyOpt dp.screen_resolution &&
         (dp.screen_resolution != snap.screen_resolution) then
        [("Screen resolution changed", "medium")]
      else []
    let a2 :=
      if truthyOpt dp.browser_info && (dp.browser_info != snap.browser_info) then
        [("Browser information changed", "low")]
      else []
    let a3 :=
      if truthyOpt dp.ip_address && (dp.ip_address != snap.ip_address) then
        [("IP address changed - potential location change", "high")]
      else []
    let dp1 : DevicePatterns :=
      { screen_resolution := mergeField dp.screen_resolution snap.screen_resolution
        browser_info := mergeField dp.browser_info snap.browser_info
        os_info := mergeField dp.os_info snap.os_info
        ip_address := mergeField dp.ip_address snap.ip_address }
    ({ s0 with profile := some { p with device_patterns := dp1 } },
     a1 ++ a2 ++ a3)

/-- The `_analyze_recent_behavior` method: partition the buffer by tag,
re-extract and re-score each nonempty channel, and report the channels whose
score exceeds 0.5.  `none` models an uncaught re-extraction exception (shown
below to be impossible on tag-partitioned input). -/
def analyzeRecentBehavior (cfg : Config) (model scaler : Option ModelState)
    (events : List Event) : Option (List (String × ℚ)) :=
  let ke := events.filter (fun e => e.etype == "keystroke")
  let me := events.filter (fun e => e.etype == "mouse")
  let kpart : Option (List (String × ℚ)) :=
    if ke.isEmpty then some []
    else
      match extractKeystrokeFeatures ke with
      | none => none
      | some f =>
        let sc := detectKeystrokeAnomalies cfg model scaler f
        some (if 1/2 < sc then [("keystroke", sc)] else [])
  match kpart with
  | none => none
  | some ka =>
    let mpart : List (String × ℚ) :=
      if me.isEmpty then []
      else
        let sc := detectMouseAnomalies cfg model scaler (extractMouseFeatures me)
        if 1/2 < sc then [("mouse", sc)] else []
    some (ka ++ mpart)

/-- The security assessment dict returned by `get_security_score`; the
unknown-user record carries no timestamp key, modelled by `none`. -/
structure SecurityRecord where
  security_score : ℤ
  risk_level : String
  anomalies_count : ℕ
  baseline_established : Bool
  timestamp : Option ℚ
deriving DecidableEq

/-- The `get_security_score` method.  `none` models an uncaught exception
(impossible, see the analysis lemma); the score is clamped to [0, 100] and the
risk tier computed from the anomaly count. -/
def getSecurityScore (cfg : Config) (now : ℚ) (s : MState) :
    Option SecurityRecord :=
  match s.profile with
  | none => some ⟨0, "unknown", 0, false, none⟩
  | some p =>
    if s.buffer.isEmpty then
      some ⟨100, "low", 0, p.baseline_established, some now⟩
    else
      match analyzeRecentBehavior cfg s.model s.scaler s.buffer with
      | none => none
      | some anoms =>
        let c := anoms.length
        let sc : ℤ := max 0 (min 100 (100 - (c : ℤ) * 10))
        let risk := if c = 0 then "low" else if c ≤ 2 then "medium" else "high"
        some ⟨sc, risk, c, p.baseline_established, some now⟩

/-- One public operation applied to a user's state, with its wall-clock time. -/
inductive Op where
  | keystroke (now : ℚ) (events : List Event)
  | mouse (now : ℚ) (events : List Event)
  | device (snap : DevicePatterns)
  | score (now : ℚ)

/-- State transition of one operation (`get_security_score` reads only). -/
def step (cfg : Config) (s : MState) : Op → MState
  | Op.keystroke now evs => processKeystrokeData cfg now s evs
  | Op.mouse now evs => processMouseData cfg now s evs
  | Op.device snap => (processDeviceData cfg s snap).1
  | Op.score _ => s

/-- A user never seen by the manager: no entries in any registry. -/
def initState : MState := ⟨none, [], none, none⟩

/-- Run a sequence of operations for one user from scratch. -/
def runOps (cfg : Config) (ops : List Op) : MState :=
  ops.foldl (step cfg) initState

/-- Baseline flag of a user's state (false when the user has no profile). -/
def flagOf (s : MState) : Bool :=
  match s.profile with
  | some p => p.baseline_established
  | none => false

/-- Stored keystroke interval history of a user's state. -/
def intervalsOf (s : MState) : List ℚ :=
  match s.profile with
  | some p => p.keystroke_patterns.keystroke_intervals
  | none => []

/-! Concrete instantiations used by witnesses and counterexamples. -/

/-- Backend with sklearn and numpy available, identity scaler, zero margin. -/
def cfgOn : Config := ⟨true, true, fun _ v => v, fun _ _ => 0⟩

/-- Backend with sklearn unavailable. -/
def cfgOff : Config := ⟨false, false, fun _ v => v, fun _ _ => 0⟩

/-- Backend whose trained decision function always returns margin -1/10. -/
def cfgNeg : Config := ⟨true, true, fun _ v => v, fun _ _ => -(1/10)⟩

/-- A raw mouse click event. -/
def clickEvent : Event := ⟨"click", 0, 0⟩

/-- A raw batch of two key-down events at timestamps 0 and 1. -/
def kbBatch : List Event := [⟨"keydown", 0, 1⟩, ⟨"keydown", 1, 2⟩]

/-- State after 20 single-click mouse batches from scratch. -/
def s20 : MState := runOps cfgOn (List.replicate 20 (Op.mouse 0 [clickEvent]))

/-- State after 19 single-click mouse batches from scratch. -/
def s19 : MState := runOps cfgOn (List.replicate 19 (Op.mouse 0 [clickEvent]))

/-- A profile one keystroke interval short of the sufficiency bar. -/
def p49 : Profile :=
  { freshProfile with keystroke_patterns := ⟨2, List.replicate 49 (1 : ℚ), 0⟩ }

/-- A user state holding `p49` with an installed but unfitted model/scaler. -/
def s49 : MState := ⟨some p49, [], some ⟨none⟩, some ⟨none⟩⟩

/-- Device snapshot carrying only an IP address. -/
def snapA : DevicePatterns := ⟨none, none, none, some ("1.2.3.4")⟩

/-- Device snapshot with every field absent. -/
def snapEmpty : DevicePatterns := ⟨none, none, none, none⟩

/-- State whose profile stores IP `1.2.3.4`, built by one device submission. -/
def sDev : MState := (processDeviceData cfgOn initState snapA).1

/-- The profile held by `sDev`. -/
def pDev : Profile :=
  { freshProfile with device_patterns := ⟨none, none, none, some ("1.2.3.4")⟩ }

/-- All-zero keystroke feature vector. -/
def kf0 : KFeatures := ⟨0, [], 0, 0⟩

/-- All-zero mouse feature vector. -/
def mf0 : MFeatures := ⟨0, 0, 0, 0⟩

/-- A fitted model/scaler entry (fitted on one all-zero row). -/
def ms0 : ModelState := ⟨some [[0, 0, 0, 0]]⟩

/-- Events an operation appends to the behavior buffer (empty when keystroke
extraction raises, and for device/score operations). -/
def taggedOf (op : Op) : List Event :=
  match op with
  | Op.keystroke now evs =>
    match extractKeystrokeFeatures evs with
    | none => []
    | some _ => tagEvents "keystroke" now evs
  | Op.mouse now evs => tagEvents "mouse" now evs
  | Op.device _ => []
  | Op.score _ => []

/-- Keystroke intervals an operation appends to the stored history. -/
def intervalsAddedOf (op : Op) : List ℚ :=
  match op with
  | Op.keystroke _ evs =>
    match extractKeystrokeFeatures evs with
    | none => []
    | some f => f.keystroke_intervals
  | _ => []

/-- Erase the timestamp field of a security assessment. -/
def stripTime (r : SecurityRecord) : SecurityRecord :=
  { r with timestamp := none }

/-! Helper lemmas. -/

/-- Keystroke profile updates never touch the baseline flag. -/
@[simp] theorem updateKeystrokeProfile_flag (p : Profile) (f : KFeatures) :
    (updateKeystrokeProfile p f).baseline_established = p.baseline_established :=
  rfl

/-- Mouse profile updates never touch the baseline flag. -/
@[simp] theorem updateMouseProfile_flag (p : Profile) (f : MFeatures) :
    (updateMouseProfile p f).baseline_established = p.baseline_established :=
  rfl

/-- Training writes only the model and scaler entries. -/
@[simp] theorem trainUserModel_profile (cfg : Config) (s : MState) :
    (trainUserModel cfg s).profile = s.profile := by
  unfold trainUserModel
  split
  · rfl
  · split
    · rfl
    · dsimp only
      split
      · rfl
      · rfl

/-- Training leaves the behavior buffer untouched. -/
@[simp] theorem trainUserModel_buffer (cfg : Config) (s : MState) :
    (trainUserModel cfg s).buffer = s.buffer := by
  unfold trainUserModel
  split
  · rfl
  · split
    · rfl
    · dsimp only
      split
      · rfl
      · rfl

/-- The flag of a state with an explicit profile. -/
@[simp] theorem flagOf_some (p : Profile) (b : List Event)
    (m sc : Option ModelState) : flagOf ⟨some p, b, m, sc⟩ = p.baseline_established :=
  rfl

/-- The flag of a profile-less state. -/
@[simp] theorem flagOf_none (b : List Event) (m sc : Option ModelState) :
    flagOf ⟨none, b, m, sc⟩ = false :=
  rfl

/-! Claim C1. -/

/-- C1: every profile is created with `baseline_established = false`, and none
of the four processing operations ever turns the flag from true back to
false. -/
theorem C1_baseline_monotone :
    freshProfile.baseline_established = false ∧
    ∀ (cfg : Config) (s : MState) (op : Op),
      flagOf s = true → flagOf (step cfg s op) = true := by
  constructor
  · rfl
  · intro cfg s op h
    obtain ⟨prof, buf, m, sc⟩ := s
    cases prof with
    | none => simp [flagOf] at h
    | some p =>
      have hflag : p.baseline_established = true := h
      cases op with
      | keystroke now evs =>
        cases hx : extractKeystrokeFeatures evs with
        | none => simp [step, processKeystrokeData, hx, flagOf, hflag]
        | some f => simp [step, processKeystrokeData, hx, flagOf, hflag]
      | mouse now evs => simp [step, processMouseData, flagOf, hflag]
      | device snap => simp [step, processDeviceData, flagOf, hflag]
      | score now => exact h

/-- Witness for C1: a concrete baselined state stays baselined across a
processing call. -/
theorem C1_witness :
    flagOf (step cfgOn
      ⟨some { freshProfile with baseline_established := true }, [], none, none⟩
      (Op.mouse 0 [clickEvent])) = true :=
  C1_baseline_monotone.2 cfgOn
    ⟨some { freshProfile with baseline_established := true }, [], none, none⟩
    (Op.mouse 0 [clickEvent]) (by decide)

/-! Claim C2. -/

/-- Training changes neither the presence of a profile nor its flag. -/
theorem flagOf_trainUserModel (cfg : Config) (s : MState) :
    flagOf (trainUserModel cfg s) = flagOf s := by
  unfold flagOf
  rw [trainUserModel_profile]

/-- Counterexample to C2: after twenty single-click mouse batches the
sufficiency check (click-pattern history has reached 20 entries) succeeds, yet
`baseline_established` is still false, and stays false under a further mouse
batch — the transition does not happen when the check first succeeds. -/
theorem C2_cex :
    s20.profile.map checkBaselineSufficient = some true ∧
    flagOf s20 = false ∧
    flagOf (step cfgOn s20 (Op.mouse 0 [clickEvent])) = false := by
  refine ⟨by decide, by decide, by decide⟩

/-- C2 as amended: the false-to-true transition happens exactly in a
`process_keystroke_data` call whose post-update profile passes the sufficiency
check (and never when extraction raises); at that transition, in the same
call, the flag is set first and `_train_user_model` is then run on the flagged
state. -/
theorem C2_amended_transition (cfg : Config) (now : ℚ) (s : MState)
    (events : List Event) (p : Profile)
    (hp : s.profile = some p) (hflag : p.baseline_established = false) :
    (flagOf (processKeystrokeData cfg now s events) =
      (match extractKeystrokeFeatures events with
       | none => false
       | some f => checkBaselineSufficient (updateKeystrokeProfile p f))) ∧
    (∀ f, extractKeystrokeFeatures events = some f →
      checkBaselineSufficient (updateKeystrokeProfile p f) = true →
      processKeystrokeData cfg now s events =
        trainUserModel cfg
          { s with
            profile := some { updateKeystrokeProfile p f with baseline_established := true }
            buffer := bufferAppend s.buffer (tagEvents "keystroke" now events) }) := by
  obtain ⟨prof, buf, m, sc⟩ := s
  simp only [MState.mk.injEq] at hp ⊢
  subst hp
  constructor
  · cases hx : extractKeystrokeFeatures events with
    | none => simp [processKeystrokeData, hx, flagOf, hflag]
    | some f =>
      cases hc : checkBaselineSufficient (updateKeystrokeProfile p f) with
      | false => simp [processKeystrokeData, hx, flagOf, hflag, hc]
      | true =>
        simp [processKeystrokeData, hx, hflag, hc, flagOf_trainUserModel, flagOf]
  · intro f hx hc
    simp [processKeystrokeData, hx, hflag, hc]

/-- Witness for C2: a profile with 49 stored intervals transitions on the next
keystroke batch that brings it to 50. -/
theorem C2_witness :
    flagOf (processKeystrokeData cfgOn 7 s49 kbBatch) =
      (match extractKeystrokeFeatures kbBatch with
       | none => false
       | some f => checkBaselineSufficient (updateKeystrokeProfile p49 f)) :=
  (C2_amended_transition cfgOn 7 s49 kbBatch p49 rfl rfl).1

/-! Claim C3. -/

/-- Counterexample to C3: a twentieth single-click mouse batch brings the
click-pattern history to the sufficiency bar, but `process_mouse_data` does
not set the flag and does not train the model. -/
theorem C3_cex :
    (processMouseData cfgOn 0 s19 [clickEvent]).profile.map checkBaselineSufficient
      = some true ∧
    flagOf (processMouseData cfgOn 0 s19 [clickEvent]) = false ∧
    (processMouseData cfgOn 0 s19 [clickEvent]).model = some ⟨none⟩ := by
  refine ⟨by decide, by decide, by decide⟩

/-- C3 as amended: `process_mouse_data` never attempts the baseline-sufficiency
check: it leaves the baseline flag unchanged and (for an existing user) leaves
the model and scaler untouched; only `process_keystroke_data` performs the
TRAINING to BASELINED transition. -/
theorem C3_amended_mouse_never_transitions (cfg : Config) (now : ℚ) (s : MState)
    (events : List Event) :
    flagOf (processMouseData cfg now s events) = flagOf s ∧
    (s.profile.isSome = true →
      (processMouseData cfg now s events).model = s.model ∧
      (processMouseData cfg now s events).scaler = s.scaler) := by
  obtain ⟨prof, buf, m, sc⟩ := s
  cases prof with
  | none => simp [processMouseData, createUserProfile, flagOf, freshProfile]
  | some p => simp [processMouseData, flagOf]

/-- Witness for C3: concrete mouse batch on a concrete existing user. -/
theorem C3_witness :
    flagOf (processMouseData cfgOn 3 s49 [clickEvent]) = flagOf s49 ∧
    (processMouseData cfgOn 3 s49 [clickEvent]).model = s49.model :=
  ⟨(C3_amended_mouse_never_transitions cfgOn 3 s49 [clickEvent]).1,
   ((C3_amended_mouse_never_transitions cfgOn 3 s49 [clickEvent]).2 (by decide)).1⟩

/-! Claim C4. -/

/-- Counterexample to C4: with the backend available but no model/scaler entry
for the user, scoring returns 0.0, not the 0.1 sentinel the claim states. -/
theorem C4_cex :
    detectKeystrokeAnomalies cfgOn none none kf0 = 0 ∧ (0 : ℚ) ≠ 1/10 := by
  constructor
  · simp [detectKeystrokeAnomalies, cfgOn]
  · norm_num

/-- C4 as amended: when the backend is unavailable both detectors return the
0.1 sentinel; when the backend is available but the user's model or scaler is
missing, or exists but is untrained, both detectors return 0.0; in every such
case they return a value rather than raising. -/
theorem C4_amended_sentinels (cfg : Config) (m sc : Option ModelState)
    (f : KFeatures) (g : MFeatures) :
    (cfg.sklearnAvailable = false →
      detectKeystrokeAnomalies cfg m sc f = 1/10 ∧
      detectMouseAnomalies cfg m sc g = 1/10) ∧
    (cfg.sklearnAvailable = true →
      (m = none ∨ sc = none ∨ m = some ⟨none⟩ ∨ sc = some ⟨none⟩) →
      detectKeystrokeAnomalies cfg m sc f = 0 ∧
      detectMouseAnomalies cfg m sc g = 0) := by
  constructor
  · intro h
    exact ⟨by simp [detectKeystrokeAnomalies, h], by simp [detectMouseAnomalies, h]⟩
  · intro h hcase
    rcases m with _ | ⟨(_ | mdata)⟩ <;> rcases sc with _ | ⟨(_ | sdata)⟩ <;>
      simp_all [detectKeystrokeAnomalies, detectMouseAnomalies]

/-- Witness for C4: concrete sentinel values on both backend conditions. -/
theorem C4_witness :
    detectKeystrokeAnomalies cfgOff none none kf0 = 1/10 ∧
    detectKeystrokeAnomalies cfgOn none none kf0 = 0 :=
  ⟨((C4_amended_sentinels cfgOff none none kf0 mf0).1 rfl).1,
   ((C4_amended_sentinels cfgOn none none kf0 mf0).2 rfl (Or.inl rfl)).1⟩

/-! Claim C5. -/

/-- Counterexample to C5: on a trained model whose decision margin is -1/10,
the mouse detector returns the binary verdict 1.0, while the affine transform
the claim states for it would give 2/5. -/
theorem C5_cex :
    detectMouseAnomalies cfgNeg (some ms0) (some ms0) mf0 = 1 ∧
    max 0 (min 1 ((cfgNeg.decisionFunction [[0, 0, 0, 0]]
      (cfgNeg.scalerTransform [[0, 0, 0, 0]] (mfVector mf0)) + 1/2) / 1)) = 2/5 ∧
    (1 : ℚ) ≠ 2/5 := by
  refine ⟨?_, ?_, by norm_num⟩
  · simp only [detectMouseAnomalies, cfgNeg, ms0]
    norm_num
  · simp only [cfgNeg, min_def, max_def]
    norm_num

/-- C5 as amended: on a trained model and scaler, the keystroke detector
returns the decision margin mapped through `clamp((margin + 0.5) / 1.0, 0, 1)`,
while the mouse detector returns the binary verdict 0.0 or 1.0; both scores
lie in [0, 1]. -/
theorem C5_amended_scoring (cfg : Config) (mdata sdata : List (List ℚ))
    (f : KFeatures) (g : MFeatures) (h : cfg.sklearnAvailable = true) :
    detectKeystrokeAnomalies cfg (some ⟨some mdata⟩) (some ⟨some sdata⟩) f =
      max 0 (min 1 ((cfg.decisionFunction mdata
        (cfg.scalerTransform sdata (kfVector f)) + 1/2) / 1)) ∧
    (detectMouseAnomalies cfg (some ⟨some mdata⟩) (some ⟨some sdata⟩) g = 0 ∨
     detectMouseAnomalies cfg (some ⟨some mdata⟩) (some ⟨some sdata⟩) g = 1) ∧
    (0 ≤ detectKeystrokeAnomalies cfg (some ⟨some mdata⟩) (some ⟨some sdata⟩) f ∧
     detectKeystrokeAnomalies cfg (some ⟨some mdata⟩) (some ⟨some sdata⟩) f ≤ 1) ∧
    (0 ≤ detectMouseAnomalies cfg (some ⟨some mdata⟩) (some ⟨some sdata⟩) g ∧
     detectMouseAnomalies cfg (some ⟨some mdata⟩) (some ⟨some sdata⟩) g ≤ 1) := by
  have hk : detectKeystrokeAnomalies cfg (some ⟨some mdata⟩) (some ⟨some sdata⟩) f =
      max 0 (min 1 ((cfg.decisionFunction mdata
        (cfg.scalerTransform sdata (kfVector f)) + 1/2) / 1)) := by
    simp [detectKeystrokeAnomalies, h]
  have hm : detectMouseAnomalies cfg (some ⟨some mdata⟩) (some ⟨some sdata⟩) g =
      (if 0 ≤ cfg.decisionFunction mdata (cfg.scalerTransform sdata (mfVector g))
       then (0 : ℚ) else 1) := by
    simp [detectMouseAnomalies, h]
  refine ⟨hk, ?_, ?_, ?_⟩
  · rw [hm]
    split
    · exact Or.inl rfl
    · exact Or.inr rfl
  · rw [hk]
    refine ⟨le_max_left 0 _, max_le (by norm_num) ?_⟩
    exact le_trans (min_le_left 1 _) (le_refl 1)
  · rw [hm]
    split <;> norm_num

/-- Witness for C5: the keystroke clamp formula at a concrete trained model. -/
theorem C5_witness :
    detectKeystrokeAnomalies cfgNeg (some ⟨some [[0, 0, 0, 0]]⟩)
      (some ⟨some [[0, 0, 0, 0]]⟩) kf0 =
      max 0 (min 1 ((cfgNeg.decisionFunction [[0, 0, 0, 0]]
        (cfgNeg.scalerTransform [[0, 0, 0, 0]] (kfVector kf0)) + 1/2) / 1)) :=
  (C5_amended_scoring cfgNeg [[0, 0, 0, 0]] [[0, 0, 0, 0]] kf0 mf0 rfl).1

/-! Claim C6. -/

/-- C6: for a profiled user the security score equals
`max(0, min(100, 100 - anomalies_count * 10))` and the risk tier follows the
0 / 1-2 / more-than-2 split; for an unknown user the fixed unknown record is
returned. -/
theorem C6_security_score :
    (∀ (cfg : Config) (now : ℚ) (s : MState) (p : Profile) (r : SecurityRecord),
      s.profile = some p → getSecurityScore cfg now s = some r →
        r.security_score = max 0 (min 100 (100 - (r.anomalies_count : ℤ) * 10)) ∧
        (r.anomalies_count = 0 → r.risk_level = "low") ∧
        (1 ≤ r.anomalies_count → r.anomalies_count ≤ 2 → r.risk_level = "medium") ∧
        (2 < r.anomalies_count → r.risk_level = "high")) ∧
    (∀ (cfg : Config) (now : ℚ) (s : MState), s.profile = none →
      getSecurityScore cfg now s = some ⟨0, "unknown", 0, false, none⟩) := by
  constructor
  · intro cfg now s p r hp hr
    simp only [getSecurityScore, hp] at hr
    by_cases hb : s.buffer.isEmpty
    · simp only [hb, if_true] at hr
      obtain rfl : (⟨100, "low", 0, p.baseline_established, some now⟩ : SecurityRecord) = r :=
        Option.some_inj.mp hr
      refine ⟨by norm_num, fun _ => rfl, ?_, ?_⟩
      · intro h1 _
        exact absurd h1 (by norm_num)
      · intro h2
        exact absurd h2 (by norm_num)
    · simp only [hb, if_false] at hr
      cases ha : analyzeRecentBehavior cfg s.model s.scaler s.buffer with
      | none => rw [ha] at hr; cases hr
      | some anoms =>
        rw [ha] at hr
        obtain rfl :
            (⟨max 0 (min 100 (100 - (anoms.length : ℤ) * 10)),
              if anoms.length = 0 then "low"
              else if anoms.length ≤ 2 then "medium" else "high",
              anoms.length, p.baseline_established, some now⟩ : SecurityRecord) = r :=
          Option.some_inj.mp hr
        refine ⟨rfl, ?_, ?_, ?_⟩
        · intro h0
          simp only [SecurityRecord.anomalies_count] at h0
          simp [h0]
        · intro h1 h2
          simp only [SecurityRecord.anomalies_count] at h1 h2
          have h0 : ¬ anoms.length = 0 := by omega
          simp [h0, h2]
        · intro h3
          simp only [SecurityRecord.anomalies_count] at h3
          have h0 : ¬ anoms.length = 0 := by omega
          have h2 : ¬ anoms.length ≤ 2 := by omega
          simp [h0, h2]
  · intro cfg now s hp
    simp [getSecurityScore, hp]

/-- Witness for C6: the unknown-user record for a fresh user, and the score
formula at a concrete profiled user with an empty buffer. -/
theorem C6_witness :
    getSecurityScore cfgOn 0 initState = some ⟨0, "unknown", 0, false, none⟩ ∧
    (⟨100, "low", 0, false, some 0⟩ : SecurityRecord).security_score =
      max 0 (min 100 (100 -
        ((⟨100, "low", 0, false, some 0⟩ : SecurityRecord).anomalies_count : ℤ) * 10)) :=
  ⟨C6_security_score.2 cfgOn 0 initState rfl,
   (C6_security_score.1 cfgOn 0 sDev pDev ⟨100, "low", 0, false, some 0⟩
     rfl rfl).1⟩

/-! Claim C7: helper lemmas on truncation, then the bounded-FIFO theorem. -/

/-- Truncation keeps at most `n` entries. -/
theorem takeLast_length_le {α : Type} (n : ℕ) (l : List α) :
    (takeLast n l).length ≤ n := by
  simp only [takeLast, List.length_drop]
  omega

/-- Truncation keeps a suffix (the most recent entries, in order). -/
theorem takeLast_suffix {α : Type} (n : ℕ) (l : List α) : takeLast n l <:+ l :=
  List.drop_suffix _ _

/-- A buffer append is always capped at 50 entries. -/
theorem bufferAppend_length_le (buf extra : List Event) :
    (bufferAppend buf extra).length ≤ 50 := by
  unfold bufferAppend
  dsimp only
  split
  · exact takeLast_length_le 50 _
  · omega

/-- A buffer append keeps a suffix of old-then-new. -/
theorem bufferAppend_suffix (buf extra : List Event) :
    bufferAppend buf extra <:+ buf ++ extra := by
  unfold bufferAppend
  dsimp only
  split
  · exact takeLast_suffix 50 _
  · exact List.suffix_refl _

/-- Interval history of an explicit state. -/
@[simp] theorem intervalsOf_some (p : Profile) (b : List Event)
    (m sc : Option ModelState) :
    intervalsOf ⟨some p, b, m, sc⟩ = p.keystroke_patterns.keystroke_intervals :=
  rfl

/-- Interval history of a profile-less state. -/
@[simp] theorem intervalsOf_none (b : List Event) (m sc : Option ModelState) :
    intervalsOf ⟨none, b, m, sc⟩ = [] :=
  rfl

/-- Mouse updates leave the keystroke patterns alone. -/
@[simp] theorem updateMouseProfile_keystroke (p : Profile) (f : MFeatures) :
    (updateMouseProfile p f).keystroke_patterns = p.keystroke_patterns :=
  rfl

/-- The interval history written by a keystroke update. -/
theorem updateKeystrokeProfile_intervals (p : Profile) (f : KFeatures) :
    (updateKeystrokeProfile p f).keystroke_patterns.keystroke_intervals =
      if f.keystroke_intervals.isEmpty then p.keystroke_patterns.keystroke_intervals
      else takeLast 1000
        (p.keystroke_patterns.keystroke_intervals ++ f.keystroke_intervals) :=
  rfl

/-- A keystroke update keeps the interval history within the 1000 cap. -/
theorem updateKeystrokeProfile_intervals_le (p : Profile) (f : KFeatures)
    (h : p.keystroke_patterns.keystroke_intervals.length ≤ 1000) :
    (updateKeystrokeProfile p f).keystroke_patterns.keystroke_intervals.length ≤ 1000 := by
  rw [updateKeystrokeProfile_intervals]
  split
  · exact h
  · exact takeLast_length_le 1000 _

/-- One step preserves both memory bounds. -/
theorem step_inv (cfg : Config) (s : MState) (op : Op)
    (h1 : s.buffer.length ≤ 50) (h2 : (intervalsOf s).length ≤ 1000) :
    (step cfg s op).buffer.length ≤ 50 ∧
    (intervalsOf (step cfg s op)).length ≤ 1000 := by
  obtain ⟨prof, buf, m, sc⟩ := s
  cases op with
  | keystroke now evs =>
    cases prof with
    | none =>
      cases hx : extractKeystrokeFeatures evs with
      | none => simp [step, processKeystrokeData, createUserProfile, hx, freshProfile]
      | some f =>
        simp only [step, processKeystrokeData, createUserProfile, hx,
          Option.isNone_none, if_true]
        split
        · exact ⟨bufferAppend_length_le _ _, by
            simpa using updateKeystrokeProfile_intervals_le freshProfile f (by simp [freshProfile])⟩
        · split
          · refine ⟨by simp [bufferAppend_length_le], ?_⟩
            rw [show (intervalsOf (trainUserModel cfg _)) = _ from rfl]
            simp only [intervalsOf, trainUserModel_profile]
            simpa using updateKeystrokeProfile_intervals_le freshProfile f (by simp [freshProfile])
          · exact ⟨bufferAppend_length_le _ _, by
              simpa using updateKeystrokeProfile_intervals_le freshProfile f (by simp [freshProfile])⟩
    | some p =>
      cases hx : extractKeystrokeFeatures evs with
      | none => simpa [step, processKeystrokeData, hx] using ⟨h1, by simpa using h2⟩
      | some f =>
        simp only [step, processKeystrokeData, hx, Option.isNone_some,
          Bool.false_eq_true, if_false]
        split
        · exact ⟨bufferAppend_length_le _ _, by
            simpa using updateKeystrokeProfile_intervals_le p f (by simpa using h2)⟩
        · split
          · refine ⟨by simp [bufferAppend_length_le], ?_⟩
            simp only [intervalsOf, trainUserModel_profile]
            simpa using updateKeystrokeProfile_intervals_le p f (by simpa using h2)
          · exact ⟨bufferAppend_length_le _ _, by
              simpa using updateKeystrokeProfile_intervals_le p f (by simpa using h2)⟩
  | mouse now evs =>
    cases prof with
    | none =>
      simp [step, processMouseData, createUserProfile, bufferAppend_length_le,
        updateMouseProfile_keystroke, freshProfile]
    | some p =>
      simpa [step, processMouseData, bufferAppend_length_le,
        updateMouseProfile_keystroke] using (by simpa using h2 : _)
  | device snap =>
    cases prof with
    | none => simp [step, processDeviceData, createUserProfile, freshProfile]
    | some p =>
      simpa [step, processDeviceData] using ⟨h1, by simpa using h2⟩
  | score now => exact ⟨h1, h2⟩

/-- One step appends only its own tagged events, keeping a suffix (FIFO). -/
theorem step_buffer_suffix (cfg : Config) (s : MState) (op : Op) :
    (step cfg s op).buffer <:+ s.buffer ++ taggedOf op := by
  obtain ⟨prof, buf, m, sc⟩ := s
  cases op with
  | keystroke now evs =>
    cases hx : extractKeystrokeFeatures evs with
    | none =>
      cases prof with
      | none => simp [step, processKeystrokeData, createUserProfile, hx, taggedOf]
      | some p =>
        simp [step, processKeystrokeData, hx, taggedOf]
    | some f =>
      cases prof with
      | none =>
        simp only [step, processKeystrokeData, createUserProfile, hx, taggedOf,
          Option.isNone_none, if_true]
        split
        · exact (bufferAppend_suffix _ _).trans (by simpa using List.suffix_append buf _)
        · split
          · rw [trainUserModel_buffer]
            exact (bufferAppend_suffix _ _).trans (by simpa using List.suffix_append buf _)
          · exact (bufferAppend_suffix _ _).trans (by simpa using List.suffix_append buf _)
      | some p =>
        simp only [step, processKeystrokeData, hx, taggedOf, Option.isNone_some,
          Bool.false_eq_true, if_false]
        split
        · exact bufferAppend_suffix _ _
        · split
          · rw [trainUserModel_buffer]
            exact bufferAppend_suffix _ _
          · exact bufferAppend_suffix _ _
  | mouse now evs =>
    cases prof with
    | none =>
      simp only [step, processMouseData, createUserProfile, taggedOf,
        Option.isNone_none, if_true]
      exact (bufferAppend_suffix _ _).trans (by simpa using List.suffix_append buf _)
    | some p =>
      simp only [step, processMouseData, taggedOf, Option.isNone_some,
        Bool.false_eq_true, if_false]
      exact bufferAppend_suffix _ _
  | device snap =>
    cases prof with
    | none => simp [step, processDeviceData, createUserProfile, taggedOf]
    | some p => simp [step, processDeviceData, taggedOf]
  | score now => simp [step, taggedOf]

/-- One step appends only its own extracted intervals, keeping a suffix. -/
theorem step_intervals_suffix (cfg : Config) (s : MState) (op : Op) :
    intervalsOf (step cfg s op) <:+ intervalsOf s ++ intervalsAddedOf op := by
  obtain ⟨prof, buf, m, sc⟩ := s
  cases op with
  | keystroke now evs =>
    cases hx : extractKeystrokeFeatures evs with
    | none =>
      cases prof with
      | none =>
        simp [step, processKeystrokeData, createUserProfile, hx, intervalsAddedOf,
          freshProfile]
      | some p => simp [step, processKeystrokeData, hx, intervalsAddedOf]
    | some f =>
      cases prof with
      | none =>
        simp only [step, processKeystrokeData, createUserProfile, hx, intervalsAddedOf,
          Option.isNone_none, if_true]
        have key : (updateKeystrokeProfile freshProfile f).keystroke_patterns.keystroke_intervals
            <:+ ([] : List ℚ) ++ f.keystroke_intervals := by
          rw [updateKeystrokeProfile_intervals]
          split
          · rename_i hemp
            simp_all [freshProfile]
          · simpa [freshProfile] using takeLast_suffix 1000 f.keystroke_intervals
        split
        · simpa using key
        · split
          · simp only [intervalsOf, trainUserModel_profile]
            simpa using key
          · simpa using key
      | some p =>
        simp only [step, processKeystrokeData, hx, intervalsAddedOf, Option.isNone_some,
          Bool.false_eq_true, if_false]
        have key : (updateKeystrokeProfile p f).keystroke_patterns.keystroke_intervals
            <:+ p.keystroke_patterns.keystroke_intervals ++ f.keystroke_intervals := by
          rw [updateKeystrokeProfile_intervals]
          split
          · rename_i hemp
            simp_all
          · exact takeLast_suffix 1000 _
        split
        · simpa using key
        · split
          · simp only [intervalsOf, trainUserModel_profile]
            simpa using key
          · simpa using key
  | mouse now evs =>
    cases prof with
    | none =>
      simp [step, processMouseData, createUserProfile, intervalsAddedOf, freshProfile]
    | some p => simp [step, processMouseData, intervalsAddedOf]
  | device snap =>
    cases prof with
    | none => simp [step, processDeviceData, createUserProfile, intervalsAddedOf, freshProfile]
    | some p => simp [step, processDeviceData, intervalsAddedOf]
  | score now => simp [step, intervalsAddedOf]

/-- C7: along every operation sequence from scratch the behavior buffer stays
within 50 entries and the interval history within 1000, and each step evicts
only oldest entries: the kept entries are a suffix (most recent, in insertion
order) of the old content followed by the newly appended entries. -/
theorem C7_bounded_fifo :
    (∀ (cfg : Config) (ops : List Op),
      (runOps cfg ops).buffer.length ≤ 50 ∧
      (intervalsOf (runOps cfg ops)).length ≤ 1000) ∧
    (∀ (cfg : Config) (s : MState) (op : Op),
      (step cfg s op).buffer <:+ s.buffer ++ taggedOf op ∧
      intervalsOf (step cfg s op) <:+ intervalsOf s ++ intervalsAddedOf op) := by
  constructor
  · intro cfg ops
    have general : ∀ (l : List Op) (s : MState),
        s.buffer.length ≤ 50 → (intervalsOf s).length ≤ 1000 →
        (l.foldl (step cfg) s).buffer.length ≤ 50 ∧
        (intervalsOf (l.foldl (step cfg) s)).length ≤ 1000 := by
      intro l
      induction l with
      | nil => intro s h1 h2; exact ⟨h1, h2⟩
      | cons op t ih =>
        intro s h1 h2
        obtain ⟨g1, g2⟩ := step_inv cfg s op h1 h2
        exact ih _ g1 g2
    exact general ops initState (by simp [initState]) (by simp [initState])
  · intro cfg s op
    exact ⟨step_buffer_suffix cfg s op, step_intervals_suffix cfg s op⟩

/-! Claim C8. -/

/-- Counterexample to C8: with stored IP `1.2.3.4`, a snapshot with no IP
field emits the high-severity anomaly, but the stored IP is left at `1.2.3.4`
instead of being updated to the snapshot's (null) value — the stored device
fields are not "always updated to the snapshot's values". -/
theorem C8_cex :
    (processDeviceData cfgOn sDev snapEmpty).2 =
      [("IP address changed - potential location change", "high")] ∧
    ((processDeviceData cfgOn sDev snapEmpty).1.profile.map
      (fun p => p.device_patterns.ip_address)) = some (some ("1.2.3.4")) ∧
    snapEmpty.ip_address = none ∧
    (some ("1.2.3.4") : Option String) ≠ none := by
  refine ⟨rfl, rfl, rfl, by decide⟩

/-- C8 as amended: exactly one anomaly entry is emitted per compared field
(resolution = medium, browser = low, IP = high) whose stored value is truthy
(non-null, nonempty) and differs from the snapshot's value, an absent snapshot
field comparing as null; a field with no stored value never yields an anomaly;
after comparison, each field present in the snapshot overwrites the stored
value, while a field absent from the snapshot leaves the stored value
unchanged. -/
theorem C8_amended_device (cfg : Config) (s : MState) (snap : DevicePatterns)
    (p : Profile) (hp : s.profile = some p) :
    ((processDeviceData cfg s snap).2.filter (fun a => a.2 == "medium")).length =
      (if truthyOpt p.device_patterns.screen_resolution &&
          (p.device_patterns.screen_resolution != snap.screen_resolution)
       then 1 else 0) ∧
    ((processDeviceData cfg s snap).2.filter (fun a => a.2 == "low")).length =
      (if truthyOpt p.device_patterns.browser_info &&
          (p.device_patterns.browser_info != snap.browser_info)
       then 1 else 0) ∧
    ((processDeviceData cfg s snap).2.filter (fun a => a.2 == "high")).length =
      (if truthyOpt p.device_patterns.ip_address &&
          (p.device_patterns.ip_address != snap.ip_address)
       then 1 else 0) ∧
    (p.device_patterns.ip_address = none →
      ((processDeviceData cfg s snap).2.filter (fun a => a.2 == "high")).length = 0) ∧
    (processDeviceData cfg s snap).1.profile = some
      { p with device_patterns :=
        ⟨mergeField p.device_patterns.screen_resolution snap.screen_resolution,
         mergeField p.device_patterns.browser_info snap.browser_info,
         mergeField p.device_patterns.os_info snap.os_info,
         mergeField p.device_patterns.ip_address snap.ip_address⟩ } := by
  obtain ⟨prof, buf, m, sc⟩ := s
  simp only at hp
  subst hp
  refine ⟨?_, ?_, ?_, ?_, ?_⟩
  · simp only [processDeviceData, Option.isNone_some, Bool.false_eq_true, if_false]
    split_ifs <;> simp_all
  · simp only [processDeviceData, Option.isNone_some, Bool.false_eq_true, if_false]
    split_ifs <;> simp_all
  · simp only [processDeviceData, Option.isNone_some, Bool.false_eq_true, if_false]
    split_ifs <;> simp_all
  · intro h0
    simp only [processDeviceData, Option.isNone_some, Bool.false_eq_true, if_false]
    simp [h0, truthyOpt]
    constructor
    · intro a b _ _ _ hb
      subst hb
      decide
    · intro a b _ _ _ hb
      subst hb
      decide
  · simp only [processDeviceData, Option.isNone_some, Bool.false_eq_true, if_false]

/-- Witness for C8: the high-severity count and the merge at concrete data. -/
theorem C8_witness :
    ((processDeviceData cfgOn sDev snapA).2.filter (fun a => a.2 == "high")).length =
      (if truthyOpt pDev.device_patterns.ip_address &&
          (pDev.device_patterns.ip_address != snapA.ip_address)
       then 1 else 0) :=
  (C8_amended_device cfgOn sDev snapA pDev rfl).2.2.1

/-! Claim C9. -/

/-- Counterexample to C9: two consecutive assessments of the same unchanged
state differ, because each call stamps the current time into the record. -/
theorem C9_cex : getSecurityScore cfgOn 0 sDev ≠ getSecurityScore cfgOn 1 sDev := by
  decide

/-- C9 as amended: with no processing in between, two consecutive
`get_security_score` calls agree on every field except the timestamp (and for
a user with no profile the records are fully identical, timestamp included,
since the unknown-user record carries no timestamp). -/
theorem C9_amended_idempotent (cfg : Config) (t1 t2 : ℚ) (s : MState) :
    (getSecurityScore cfg t1 s).map stripTime =
      (getSecurityScore cfg t2 s).map stripTime ∧
    (s.profile = none → getSecurityScore cfg t1 s = getSecurityScore cfg t2 s) := by
  obtain ⟨prof, buf, m, sc⟩ := s
  cases prof with
  | none => exact ⟨rfl, fun _ => rfl⟩
  | some p =>
    constructor
    · simp only [getSecurityScore]
      by_cases hb : buf.isEmpty
      · simp [hb, stripTime]
      · simp only [hb, if_false]
        cases ha : analyzeRecentBehavior cfg m sc buf with
        | none => rfl
        | some anoms => simp [stripTime]
    · intro h
      simp at h

/-- Witness for C9: full equality of consecutive assessments of an unknown
user. -/
theorem C9_witness :
    getSecurityScore cfgOn 0 initState = getSecurityScore cfgOn 5 initState :=
  (C9_amended_idempotent cfgOn 0 5 initState).2 rfl

/-! Claim C10: helper lemmas, then the tagging/re-extraction theorem. -/

/-- Membership in an appended buffer comes from the old buffer or the new
events. -/
theorem mem_bufferAppend {e : Event} {buf extra : List Event}
    (h : e ∈ bufferAppend buf extra) : e ∈ buf ∨ e ∈ extra := by
  have hsub : e ∈ buf ++ extra := (bufferAppend_suffix buf extra).subset h
  exact List.mem_append.mp hsub

/-- Every tagged event carries the modality tag and the processing time. -/
theorem mem_tagEvents {e : Event} {tag : String} {now : ℚ} {evs : List Event}
    (h : e ∈ tagEvents tag now evs) : e.etype = tag ∧ e.timestamp = now := by
  simp only [tagEvents, List.mem_map] at h
  obtain ⟨a, _, rfl⟩ := h
  exact ⟨rfl, rfl⟩

/-- C10: processing overwrites each buffered event's type with the modality
tag and its timestamp with the processing time, so the buffer only ever holds
`keystroke`/`mouse`-typed events; consequently the re-extraction that
`get_security_score` performs over the buffer finds no `keydown`, `click` or
`scroll` subtypes and always yields zero typing speed, no intervals, and zero
click and scroll counts. -/
theorem C10_tagging_zeroes_reextraction :
    (∀ (cfg : Config) (now : ℚ) (s : MState) (events : List Event) (e : Event),
      e ∈ (processKeystrokeData cfg now s events).buffer →
        e ∈ s.buffer ∨ (e.etype = "keystroke" ∧ e.timestamp = now)) ∧
    (∀ (cfg : Config) (now : ℚ) (s : MState) (events : List Event) (e : Event),
      e ∈ (processMouseData cfg now s events).buffer →
        e ∈ s.buffer ∨ (e.etype = "mouse" ∧ e.timestamp = now)) ∧
    (∀ buf : List Event,
      extractKeystrokeFeatures (buf.filter (fun e => e.etype == "keystroke")) =
        some ⟨0, [], 0, 0⟩ ∧
      extractMouseFeatures (buf.filter (fun e => e.etype == "mouse")) =
        ⟨0, 0, 0, 0⟩) := by
  refine ⟨?_, ?_, ?_⟩
  · intro cfg now s events e he
    obtain ⟨prof, buf, m, sc⟩ := s
    cases prof with
    | none =>
      cases hx : extractKeystrokeFeatures events with
      | none =>
        simp [processKeystrokeData, createUserProfile, hx] at he
      | some f =>
        simp only [processKeystrokeData, createUserProfile, hx, Option.isNone_none,
          if_true] at he
        have hb : e ∈ bufferAppend [] (tagEvents "keystroke" now events) := by
          split at he
          · exact he
          · split at he
            · rw [trainUserModel_buffer] at he
              exact he
            · exact he
        rcases mem_bufferAppend hb with h | h
        · cases h
        · exact Or.inr (mem_tagEvents h)
    | some p =>
      cases hx : extractKeystrokeFeatures events with
      | none =>
        simp only [processKeystrokeData, hx, Option.isNone_some, Bool.false_eq_true,
          if_false] at he
        exact Or.inl he
      | some f =>
        simp only [processKeystrokeData, hx, Option.isNone_some, Bool.false_eq_true,
          if_false] at he
        have hb : e ∈ bufferAppend buf (tagEvents "keystroke" now events) := by
          split at he
          · exact he
          · split at he
            · rw [trainUserModel_buffer] at he
              exact he
            · exact he
        rcases mem_bufferAppend hb with h | h
        · exact Or.inl h
        · exact Or.inr (mem_tagEvents h)
  · intro cfg now s events e he
    obtain ⟨prof, buf, m, sc⟩ := s
    cases prof with
    | none =>
      simp only [processMouseData, createUserProfile, Option.isNone_none,
        if_true] at he
      rcases mem_bufferAppend he with h | h
      · cases h
      · exact Or.inr (mem_tagEvents h)
    | some p =>
      simp only [processMouseData, Option.isNone_some, Bool.false_eq_true,
        if_false] at he
      rcases mem_bufferAppend he with h | h
      · exact Or.inl h
      · exact Or.inr (mem_tagEvents h)
  · intro buf
    constructor
    · have hnil : (buf.filter (fun e => e.etype == "keystroke")).filter
          (fun e => e.etype == "keydown") = [] := by
        rw [List.filter_eq_nil_iff]
        intro a ha
        have h2 := (List.mem_filter.mp ha).2
        have h3 : a.etype = "keystroke" := by simpa using h2
        simp [h3]
      simp [extractKeystrokeFeatures, hnil]
    · have hclick : (buf.filter (fun e => e.etype == "mouse")).filter
          (fun e => e.etype == "click") = [] := by
        rw [List.filter_eq_nil_iff]
        intro a ha
        have h2 := (List.mem_filter.mp ha).2
        have h3 : a.etype = "mouse" := by simpa using h2
        simp [h3]
      have hscroll : (buf.filter (fun e => e.etype == "mouse")).filter
          (fun e => e.etype == "scroll") = [] := by
        rw [List.filter_eq_nil_iff]
        intro a ha
        have h2 := (List.mem_filter.mp ha).2
        have h3 : a.etype = "mouse" := by simpa using h2
        simp [h3]
      simp [extractMouseFeatures, hclick, hscroll]

/-- Witness for C10: the concrete tagged entry produced by a keystroke batch
on a fresh user is tagged and timestamped as the theorem requires. -/
theorem C10_witness :
    (⟨"keystroke", 5, 7⟩ : Event) ∈ initState.buffer ∨
    ((⟨"keystroke", 5, 7⟩ : Event).etype = "keystroke" ∧
     (⟨"keystroke", 5, 7⟩ : Event).timestamp = 5) :=
  C10_tagging_zeroes_reextraction.1 cfgOn 5 initState [⟨"keydown", 0, 7⟩]
    ⟨"keystroke", 5, 7⟩ (by decide)

end BehaviorAuth
